import Mathlib

/-!
# Verification of the AI_reStarter Detection & Recovery Orchestration Engine

A shallow embedding of the core of the repository:

* `src/core/kiro_recovery.py` — the `KiroRecovery` orchestrator
  (recovery-attempt policy, error handling, start/stop of monitoring);
* `src/core/mode_manager.py` — the `ModeManager` (detector registration,
  active-detector selection, detect-and-execute);
* `src/utils/image_processing.py` — `ImageProcessor.detect_error` and
  `ImageProcessor.find_template_position`;
* `src/plugins/amazonq_detector.py` — `AmazonQDetector`
  (`detect_state`, `add_template`).

Modelling conventions:

* timestamps (`time.time()` values and the cooldown) are integers (`ℤ`);
  `int(current_time)` on kiro_recovery.py:470 is then the identity;
* template-matching confidences (`max_val` of `cv2.minMaxLoc`) are
  rationals (`ℚ`);
* an image enters the model only through its dimensions together with the
  outcome that `cv2.matchTemplate`/`cv2.minMaxLoc` would produce on it for
  each template (`max_val` and `max_loc`), since the selection logic under
  verification consumes only those values;
* `cv2.matchTemplate` raises an OpenCV error when a template is larger than
  the image in either dimension; functions that invoke it report, next to
  their result, the list of templates the correlation routine was actually
  invoked on, so that "never invoked" properties are statable.
-/

namespace AIReStarter

/-! ## Image and template data (image_processing.py, amazonq_detector.py) -/

/-- The dimensions of a captured screenshot (`screenshot.shape[:2]`, height
then width). -/
structure ImgDims where
  h : Nat
  w : Nat
deriving DecidableEq, Repr

/-- A template together with the outcome `cv2.matchTemplate` +
`cv2.minMaxLoc` would produce for it on the screenshot under consideration:
`maxVal` is `max_val` (the best normalized cross-correlation score) and
`maxLoc` is `max_loc` (the top-left alignment `(x, y)` of the best score). -/
structure TemplateMatch where
  name : String
  h : Nat
  w : Nat
  maxVal : ℚ
  maxLoc : Nat × Nat
deriving DecidableEq, Repr

/-- Whether the template fits inside the screenshot: the negation of the
skip condition `template_h > screenshot_h or template_w > screenshot_w`
(image_processing.py:60, 100-101); `cv2.matchTemplate` raises when it does
not hold. -/
def fits (s : ImgDims) (t : TemplateMatch) : Bool :=
  decide (t.h ≤ s.h ∧ t.w ≤ s.w)

/-- The centre position reported for a match: `(max_loc[0] + w // 2,
max_loc[1] + h // 2)` (image_processing.py:110-113,
amazonq_detector.py:104-107). -/
def templateCenter (t : TemplateMatch) : Nat × Nat :=
  (t.maxLoc.1 + t.w / 2, t.maxLoc.2 + t.h / 2)

/-! ## `ImageProcessor.detect_error` (image_processing.py:23-81)

Iterates the `error_templates` dict in insertion order; skips any template
larger than the screenshot in either dimension *without* calling
`cv2.matchTemplate`; otherwise runs the matching and returns the first
template name whose `max_val >= threshold`.  The second component of the
result collects the templates `cv2.matchTemplate` was invoked on. -/

def detect_error_aux (th : ℚ) (s : ImgDims) :
    List TemplateMatch → Option String × List TemplateMatch
  | [] => (none, [])
  | t :: rest =>
    if t.h > s.h ∨ t.w > s.w then
      -- size check (image_processing.py:60-64): skip, matchTemplate not invoked
      detect_error_aux th s rest
    else
      -- cv2.matchTemplate invoked (image_processing.py:68)
      if th ≤ t.maxVal then
        (some t.name, [t])
      else
        let r := detect_error_aux th s rest
        (r.1, t :: r.2)

/-- `ImageProcessor.detect_error`: the returned error name. -/
def detect_error (th : ℚ) (s : ImgDims) (ts : List TemplateMatch) :
    Option String :=
  (detect_error_aux th s ts).1

/-- `ImageProcessor.find_template_position` (image_processing.py:83-119):
size check first (no correlation on oversized templates), then a single
match returning the template centre when `max_val >= threshold`.  The
second component records whether `cv2.matchTemplate` was invoked. -/
def find_template_position (th : ℚ) (s : ImgDims) (t : TemplateMatch) :
    Option (Nat × Nat) × Bool :=
  if t.h > s.h ∨ t.w > s.w then
    (none, false)
  else if th ≤ t.maxVal then
    (some (templateCenter t), true)
  else
    (none, true)

/-! ## `AmazonQDetector.detect_state` (amazonq_detector.py:68-127)

Evaluates every template (no size pre-check: `cv2.matchTemplate` is invoked
on each, inside a per-template `try`), keeps the best-scoring candidate in
`best_confidence` / `best_position` / `best_template_name` (initialised to
`0.0` / `None` / `""`), and emits a `DetectionResult` only when the final
`best_confidence >= detection_threshold` and a position was recorded.  An
oversized template makes `cv2.matchTemplate` raise; the exception is caught
(amazonq_detector.py:111-112) and the template contributes no update. -/

/-- The running best-match accumulator of `detect_state`
(`best_confidence`, `best_position`, `best_template_name`). -/
structure Best where
  confidence : ℚ
  position : Option (Nat × Nat)
  name : String
deriving DecidableEq, Repr

/-- One step of the template loop in `detect_state`
(amazonq_detector.py:93-112): when the template fits, the correlation runs
and the accumulator is replaced when `max_val > best_confidence` (strict);
when it does not fit, `cv2.matchTemplate` raises, the exception is caught
and the accumulator is unchanged. -/
def detect_state_update (s : ImgDims) (b : Best) (t : TemplateMatch) : Best :=
  if fits s t then
    if b.confidence < t.maxVal then
      ⟨t.maxVal, some (templateCenter t), t.name⟩
    else b
  else b

def detect_state_loop (s : ImgDims) :
    List TemplateMatch → Best → Best × List TemplateMatch
  | [], b => (b, [])
  | t :: rest, b =>
    let r := detect_state_loop s rest (detect_state_update s b t)
    -- cv2.matchTemplate is invoked on t in both branches (amazonq_detector.py:95)
    (r.1, t :: r.2)

/-- The `DetectionResult` produced by
`DetectionResult.create_run_button_result` (detection_result.py:38-61);
`position` is `tuple[int, int] | None` in the dataclass
(detection_result.py:24). -/
structure RunButtonResult where
  state_type : String
  confidence : ℚ
  position : Option (Nat × Nat)
  template_name : String
deriving DecidableEq, Repr

/-- `DetectionResult.is_valid` (detection_result.py:88-98):
`confidence > 0.0` and a non-empty `state_type`. -/
def RunButtonResult.is_valid (r : RunButtonResult) : Bool :=
  decide (0 < r.confidence) && decide (r.state_type.length > 0)

/-- `AmazonQDetector.detect_state`: result together with the list of
templates `cv2.matchTemplate` was invoked on.  The final test mirrors
`if best_confidence >= self.detection_threshold and best_position:`
(amazonq_detector.py:115) — a recorded position is truthy exactly when it
is not `None`. -/
def detect_state (th : ℚ) (s : ImgDims) (ts : List TemplateMatch) :
    Option RunButtonResult × List TemplateMatch :=
  if ts.isEmpty then
    -- amazonq_detector.py:77-79: empty template store, return None
    (none, [])
  else
    let r := detect_state_loop s ts ⟨0, none, ""⟩
    if th ≤ r.1.confidence ∧ r.1.position.isSome then
      (some ⟨"run_button", r.1.confidence, r.1.position, r.1.name⟩, r.2)
    else (none, r.2)

/-! ## `AmazonQDetector.add_template` (amazonq_detector.py:170-200)

The (grayscale) image is first inserted into the in-memory dict
`self.run_button_templates[template_name] = gray_template`
(amazonq_detector.py:188) and only then written to disk with `cv2.imwrite`
(amazonq_detector.py:193).  A failing disk write raises, the `except`
returns `False` — with the in-memory insertion already performed. -/

/-- Python dict assignment `d[k] = v` on an insertion-ordered association
list: replace in place when the key exists, append otherwise. -/
def dictInsert {α : Type} (k : String) (v : α) :
    List (String × α) → List (String × α)
  | [] => [(k, v)]
  | (k', v') :: rest =>
    if k' = k then (k, v) :: rest else (k', v') :: dictInsert k v rest

/-- Python dict lookup `d.get(k)` on an insertion-ordered association
list. -/
def dictGet {α : Type} (k : String) : List (String × α) → Option α
  | [] => none
  | (k', v') :: rest => if k' = k then some v' else dictGet k rest

/-- `AmazonQDetector.add_template`: returns the success flag and the
in-memory template map after the call.  `imwriteOk` models whether the disk
write `cv2.imwrite` (amazonq_detector.py:193) completes without raising;
when it raises, the `except` (amazonq_detector.py:198-200) returns
`False`. -/
def add_template {α : Type} (name : String) (img : α) (imwriteOk : Bool)
    (templates : List (String × α)) : Bool × List (String × α) :=
  -- memory insertion happens first (amazonq_detector.py:188)
  let templates' := dictInsert name img templates
  if imwriteOk then (true, templates') else (false, templates')

/-! ## The region-offset call path (kiro_recovery.py:419-459)

`KiroRecovery._detect_and_execute_with_offset` is meant to translate
positions detected inside a monitor area back to screen coordinates: for
an `AmazonQDetector` it calls `detector.detect_state(screenshot,
region_offset)` (kiro_recovery.py:441-442).  But
`AmazonQDetector.detect_state` is declared with the single positional
parameter `screenshot` (amazonq_detector.py:68), so that call raises
`TypeError` before the detector body runs; the `except` at
kiro_recovery.py:456-457 logs it and the loop falls through to
`return None`. -/

/-- The positional parameters of `AmazonQDetector.detect_state` after
`self` (amazonq_detector.py:68). -/
def detect_state_params : List String := ["screenshot"]

/-- The call `detector.detect_state(screenshot, region_offset)`
(kiro_recovery.py:442): two positional arguments are passed; if the callee
accepted two, the one-screenshot `detect_state` body (which adds no region
offset anywhere) would run; with fewer parameters Python raises
`TypeError`. -/
def call_detect_state_with_offset (th : ℚ) (s : ImgDims)
    (ts : List TemplateMatch) (regionOffset : ℤ × ℤ) :
    Except String (Option RunButtonResult) :=
  if detect_state_params.length < 2 then
    Except.error "TypeError: detect_state() takes 2 positional arguments but 3 were given"
  else
    Except.ok (detect_state th s ts).1

/-- `KiroRecovery._detect_and_execute_with_offset`
(kiro_recovery.py:419-459) specialised to a single active AmazonQ
detector: the detector call is wrapped in `try` — an escaping exception is
logged (456-457) and the function returns `None` (459); on a valid result
the recovery action `execOk` decides whether the result is returned. -/
def detect_and_execute_with_offset (th : ℚ) (s : ImgDims)
    (ts : List TemplateMatch) (regionOffset : ℤ × ℤ)
    (execOk : RunButtonResult → Bool) : Option RunButtonResult :=
  match call_detect_state_with_offset th s ts regionOffset with
  | Except.error _ => none
  | Except.ok none => none
  | Except.ok (some r) =>
    if r.is_valid then (if execOk r then some r else none) else none

/-- Modelled from the spec: the intended coordinate translation
`globalPos = matchPos + templateCenterOffset + regionOffset` (spec §4.3) —
absent from the code, whose `detect_state` accepts no region offset.
`tdims` is the template's `(height, width)`. -/
def specGlobalPos (matchPos : Nat × Nat) (tdims : Nat × Nat)
    (regionOffset : Nat × Nat) : Nat × Nat :=
  (matchPos.1 + tdims.2 / 2 + regionOffset.1,
   matchPos.2 + tdims.1 / 2 + regionOffset.2)

/-! ## `ModeManager` (mode_manager.py)

`_setup_detectors` (mode_manager.py:46-57) registers exactly one detector,
under the key `"amazonq"`; the `"kiro"` registration is commented out.
`get_active_detectors` (mode_manager.py:90-117) selects detectors by the
current mode string; `detect_and_execute` (mode_manager.py:119-152) walks
the active detectors and returns the first valid detection whose recovery
action succeeds. -/

/-- The state of the one registered detector kind (`AmazonQDetector`) that
`ModeManager` needs: its template names and the `amazonq.enabled`
configuration flag read by `is_enabled` (amazonq_detector.py:162-168). -/
structure AQDet where
  runButtonTemplates : List String
  enabled : Bool
deriving DecidableEq, Repr

/-- `ModeManager` state: the `current_mode` string and the `detectors`
dict (insertion-ordered). -/
structure MMState where
  currentMode : String
  detectors : List (String × AQDet)
deriving DecidableEq, Repr

/-- `ModeManager._setup_detectors` (mode_manager.py:46-57): the detectors
dict after initialisation — only `"amazonq"` is ever registered. -/
def setup_detectors (d : AQDet) : List (String × AQDet) :=
  [("amazonq", d)]

/-- `ModeManager.get_detector` (mode_manager.py:181-190). -/
def get_detector (m : MMState) (name : String) : Option AQDet :=
  dictGet name m.detectors

/-- `ModeManager.get_active_detectors` (mode_manager.py:90-117). -/
def get_active_detectors (m : MMState) : List (String × AQDet) :=
  if m.currentMode = "kiro" then
    match dictGet "kiro" m.detectors with
    | some d => if d.enabled then [("kiro", d)] else []
    | none => []
  else if m.currentMode = "amazonq" then
    match dictGet "amazonq" m.detectors with
    | some d => if d.enabled then [("amazonq", d)] else []
    | none => []
  else if m.currentMode = "auto" then
    m.detectors.filter (fun p => p.2.enabled)
  else
    []

/-- `ModeManager.detect_and_execute` (mode_manager.py:119-152), with the
per-detector behaviour abstracted: `det` is what `detector.detect_state`
returns on the given screenshot (an exception escaping a detector is caught
at mode_manager.py:149-150 and amounts to no result), `valid` is
`result.is_valid()` and `execAct` is `detector.execute_recovery_action`.
Returns the first valid result whose recovery action succeeds. -/
def detect_and_execute {R : Type} (det : String × AQDet → Option R)
    (valid : R → Bool) (execAct : String × AQDet → R → Bool)
    (m : MMState) : Option R :=
  (get_active_detectors m).foldr
    (fun p acc =>
      match det p with
      | some r => if valid r && execAct p r then some r else acc
      | none => acc)
    none

/-! ## `KiroRecovery` (kiro_recovery.py)

The orchestrator state (kiro_recovery.py:79-83) and its operations:
`should_attempt_recovery` (310-324), `_handle_error_detection` (461-479),
`start_monitoring` (481-525), `stop_monitoring` (527-534). -/

/-- The mutable state of `KiroRecovery` the recovery policy touches,
together with the owned `ModeManager` state. -/
structure KState where
  monitoring : Bool
  lastErrorTime : ℤ
  recoveryAttempts : Nat
  maxRecoveryAttempts : Nat
  errorTemplates : List String
  modeMgr : MMState
deriving DecidableEq, Repr

/-- `KiroRecovery.should_attempt_recovery` (kiro_recovery.py:310-324):
`now` is the `time.time()` sample and `cooldown` the configured
`recovery_cooldown`.  The cooldown window is checked first, the attempt
budget second. -/
def should_attempt_recovery (now cooldown : ℤ) (s : KState) : Bool :=
  if now - s.lastErrorTime < cooldown then false
  else if s.maxRecoveryAttempts ≤ s.recoveryAttempts then false
  else true

/-- `KiroRecovery._handle_error_detection` (kiro_recovery.py:461-479):
`sendOk` is the outcome of `send_recovery_command`.  Counters are updated
only when the attempt was permitted and the command send succeeded
(`last_error_time = int(current_time)`, `recovery_attempts += 1`). -/
def handle_error_detection (now cooldown : ℤ) (sendOk : Bool)
    (s : KState) : KState :=
  if should_attempt_recovery now cooldown s then
    if sendOk then
      { s with lastErrorTime := now,
               recoveryAttempts := s.recoveryAttempts + 1 }
    else s
  else s

/-- `KiroRecovery.start_monitoring` (kiro_recovery.py:481-525).  Returns
whether a monitor thread was launched (the method returns the thread on
success and `None` otherwise) and the state after the call.

* already monitoring: warn and return `None` (483-485);
* mode `"amazonq"`: a missing detector or an empty template store is only
  warned about, monitoring starts anyway (491-496);
* mode `"kiro"`: refuse when `error_templates` is empty (497-501);
* any other mode (the `"auto"` branch): refuse when there is no active
  detector (502-506);
* otherwise set `monitoring = True`, reset `recovery_attempts = 0` and
  launch the loop (508-520). -/
def start_monitoring (s : KState) : Bool × KState :=
  if s.monitoring then (false, s)
  else
    let proceed : Bool × KState :=
      (true, { s with monitoring := true, recoveryAttempts := 0 })
    if s.modeMgr.currentMode = "amazonq" then
      proceed
    else if s.modeMgr.currentMode = "kiro" then
      if s.errorTemplates.isEmpty then (false, s) else proceed
    else
      if (get_active_detectors s.modeMgr).isEmpty then (false, s)
      else proceed

/-- `KiroRecovery.stop_monitoring` (kiro_recovery.py:527-534): idempotent,
clears the `monitoring` flag. -/
def stop_monitoring (s : KState) : KState :=
  if s.monitoring then { s with monitoring := false } else s

/-- `ModeManager.switch_mode` (mode_manager.py:59-80): invalid mode strings
are rejected without mutating state. -/
def switch_mode (mode : String) (m : MMState) : MMState :=
  if mode = "kiro" ∨ mode = "amazonq" ∨ mode = "auto" then
    { m with currentMode := mode }
  else m

/-- The control events that mutate a `KiroRecovery` instance after
construction: the public start/stop calls, an error-detection step of the
monitor loop (kiro_recovery.py:366-371, 385-389, 402-406), a mode switch,
a template reload (`load_error_templates`, kiro_recovery.py:105-110) and a
detector reload (`ModeManager.reload_detectors`, mode_manager.py:192-195). -/
inductive Ev where
  | start : Ev
  | stop : Ev
  | handleError (now cooldown : ℤ) (sendOk : Bool) : Ev
  | switchMode (mode : String) : Ev
  | reloadTemplates (ts : List String) : Ev
  | reloadDetectors (d : AQDet) : Ev
deriving DecidableEq, Repr

/-- The effect of one control event on the orchestrator state. -/
def stepEv (e : Ev) (s : KState) : KState :=
  match e with
  | .start => (start_monitoring s).2
  | .stop => stop_monitoring s
  | .handleError now cooldown sendOk => handle_error_detection now cooldown sendOk s
  | .switchMode mode => { s with modeMgr := switch_mode mode s.modeMgr }
  | .reloadTemplates ts => { s with errorTemplates := ts }
  | .reloadDetectors d => { s with modeMgr := { s.modeMgr with detectors := setup_detectors d } }

/-- The state of a freshly constructed `KiroRecovery`
(kiro_recovery.py:74-89): not monitoring, `last_error_time = 0`,
`recovery_attempts = 0`, the configured maximum, the loaded error
templates, and a `ModeManager` with only the `"amazonq"` detector
registered. -/
def initKState (maxAttempts : Nat) (errTs : List String) (mode : String)
    (d : AQDet) : KState :=
  { monitoring := false
    lastErrorTime := 0
    recoveryAttempts := 0
    maxRecoveryAttempts := maxAttempts
    errorTemplates := errTs
    modeMgr := { currentMode := mode, detectors := setup_detectors d } }

/-- The states a `KiroRecovery` instance can reach from a given initial
state by control events. -/
inductive Reachable (init : KState) : KState → Prop where
  | refl : Reachable init init
  | step : ∀ {s : KState} (e : Ev), Reachable init s → Reachable init (stepEv e s)

/-! ## Helper lemmas -/

/-- `should_attempt_recovery` returns `true` exactly when the cooldown has
elapsed and the attempt budget is not exhausted. -/
theorem should_attempt_recovery_true_iff (now cooldown : ℤ) (s : KState) :
    should_attempt_recovery now cooldown s = true ↔
      cooldown ≤ now - s.lastErrorTime ∧
        s.recoveryAttempts < s.maxRecoveryAttempts := by
  unfold should_attempt_recovery
  split_ifs with h1 h2 <;> simp <;> omega

/-- Any control event preserves the attempt-budget bound. -/
theorem stepEv_attempts_le (e : Ev) (s : KState)
    (h : s.recoveryAttempts ≤ s.maxRecoveryAttempts) :
    (stepEv e s).recoveryAttempts ≤ (stepEv e s).maxRecoveryAttempts := by
  cases e with
  | start =>
    simp only [stepEv, start_monitoring]
    split_ifs <;> simpa
  | stop =>
    simp only [stepEv, stop_monitoring]
    split_ifs <;> simpa
  | handleError now cooldown sendOk =>
    simp only [stepEv, handle_error_detection]
    split_ifs with h1 h2
    · have := (should_attempt_recovery_true_iff now cooldown s).mp h1
      simpa using this.2
    · simpa
    · simpa
  | switchMode mode => simpa [stepEv]
  | reloadTemplates ts => simpa [stepEv]
  | reloadDetectors d => simpa [stepEv]

/-! ## Claim theorems -/

/-- C1: `should_attempt_recovery` permits an attempt iff the elapsed time
since the last successful recovery is at least the configured cooldown and
the attempt count is strictly below the configured maximum; in particular
it returns `false` whenever `now - lastErrorTime < cooldown`, and `false`
whenever `recoveryAttempts ≥ maxRecoveryAttempts`, regardless of
cooldown. -/
theorem C1_should_attempt_recovery_policy (now cooldown : ℤ) (s : KState) :
    (should_attempt_recovery now cooldown s = true ↔
      cooldown ≤ now - s.lastErrorTime ∧
        s.recoveryAttempts < s.maxRecoveryAttempts) ∧
    (now - s.lastErrorTime < cooldown →
      should_attempt_recovery now cooldown s = false) ∧
    (s.maxRecoveryAttempts ≤ s.recoveryAttempts →
      should_attempt_recovery now cooldown s = false) := by
  refine ⟨should_attempt_recovery_true_iff now cooldown s, ?_, ?_⟩ <;>
    · intro h
      rcases hb : should_attempt_recovery now cooldown s with _ | _
      · rfl
      · have := (should_attempt_recovery_true_iff now cooldown s).mp hb
        omega

/-- Witness for C1: with `now = 100`, `cooldown = 30` and a fresh state
whose last recovery was at time `90`, the cooldown clause forbids the
attempt. -/
theorem C1_should_attempt_recovery_policy_witness :
    should_attempt_recovery 100 30
      { monitoring := true, lastErrorTime := 90, recoveryAttempts := 0,
        maxRecoveryAttempts := 3, errorTemplates := [],
        modeMgr := { currentMode := "auto", detectors := [] } } = false :=
  (C1_should_attempt_recovery_policy 100 30 _).2.1 (by decide)

/-- C2: on a permitted recovery attempt, a failed `send_recovery_command`
leaves the whole state (in particular `recovery_attempts` and
`last_error_time`) unchanged, while a successful one sets
`last_error_time` to the current time and increments `recovery_attempts`
by exactly one. -/
theorem C2_handle_error_detection_counters (now cooldown : ℤ) (s : KState)
    (h : should_attempt_recovery now cooldown s = true) :
    handle_error_detection now cooldown false s = s ∧
    (handle_error_detection now cooldown true s).lastErrorTime = now ∧
    (handle_error_detection now cooldown true s).recoveryAttempts =
      s.recoveryAttempts + 1 := by
  simp [handle_error_detection, h]

/-- Witness for C2: a fresh state at time `100` with cooldown `30`. -/
theorem C2_handle_error_detection_counters_witness :
    handle_error_detection 100 30 false
      { monitoring := true, lastErrorTime := 0, recoveryAttempts := 0,
        maxRecoveryAttempts := 3, errorTemplates := ["err"],
        modeMgr := { currentMode := "kiro", detectors := [] } } =
      { monitoring := true, lastErrorTime := 0, recoveryAttempts := 0,
        maxRecoveryAttempts := 3, errorTemplates := ["err"],
        modeMgr := { currentMode := "kiro", detectors := [] } } ∧
    (handle_error_detection 100 30 true
      { monitoring := true, lastErrorTime := 0, recoveryAttempts := 0,
        maxRecoveryAttempts := 3, errorTemplates := ["err"],
        modeMgr := { currentMode := "kiro", detectors := [] } }).lastErrorTime = 100 ∧
    (handle_error_detection 100 30 true
      { monitoring := true, lastErrorTime := 0, recoveryAttempts := 0,
        maxRecoveryAttempts := 3, errorTemplates := ["err"],
        modeMgr := { currentMode := "kiro", detectors := [] } }).recoveryAttempts = 1 :=
  C2_handle_error_detection_counters 100 30 _ (by decide)

/-- C3: in every state reachable from a freshly constructed orchestrator,
`recovery_attempts ≤ max_recovery_attempts`; and whenever a control event
turns `monitoring` from `false` to `true` (a successful `start_monitoring`,
including one after `stop_monitoring`), `recovery_attempts` is reset
to `0`. -/
theorem C3_recovery_attempts_invariant :
    (∀ (ma : Nat) (ts0 : List String) (mode : String) (d : AQDet)
        (s : KState), Reachable (initKState ma ts0 mode d) s →
      s.recoveryAttempts ≤ s.maxRecoveryAttempts) ∧
    (∀ (s : KState) (e : Ev), s.monitoring = false →
      (stepEv e s).monitoring = true → (stepEv e s).recoveryAttempts = 0) := by
  constructor
  · intro ma ts0 mode d s hs
    induction hs with
    | refl => simp [initKState]
    | step e _ ih => exact stepEv_attempts_le e _ ih
  · intro s e hmon hmon'
    cases e with
    | start =>
      simp only [stepEv, start_monitoring, hmon] at hmon' ⊢
      split_ifs at hmon' ⊢ <;> simp_all
    | stop =>
      simp only [stepEv, stop_monitoring] at hmon'
      split_ifs at hmon' <;> simp_all
    | handleError now cooldown sendOk =>
      simp only [stepEv, handle_error_detection] at hmon'
      split_ifs at hmon' <;> simp_all
    | switchMode mode => simp [stepEv] at hmon'; simp_all
    | reloadTemplates ts => simp [stepEv] at hmon'; simp_all
    | reloadDetectors d => simp [stepEv] at hmon'; simp_all

/-- Witness for C3: the state reached by a single successful start from a
fresh orchestrator in auto mode satisfies the attempt bound. -/
theorem C3_recovery_attempts_invariant_witness :
    (stepEv Ev.start
        (initKState 3 ["e"] "auto" ⟨["t"], true⟩)).recoveryAttempts ≤
      (stepEv Ev.start
        (initKState 3 ["e"] "auto" ⟨["t"], true⟩)).maxRecoveryAttempts :=
  C3_recovery_attempts_invariant.1 3 ["e"] "auto" ⟨["t"], true⟩ _
    (Reachable.step Ev.start Reachable.refl)

/-- C8 counterexample: in mode `"amazonq"` with the registered AmazonQ
detector disabled (`amazonq.enabled = False`), there is no enabled detector
for the current mode — `get_active_detectors` is empty — yet
`start_monitoring` does not refuse: it launches the monitor thread and sets
`monitoring = true` (kiro_recovery.py:491-496 only logs a warning in
amazonq mode and proceeds). -/
theorem C8_start_monitoring_counterexample :
    get_active_detectors ⟨"amazonq", [("amazonq", ⟨[], false⟩)]⟩ = [] ∧
    (start_monitoring
      ⟨false, 0, 0, 3, [], ⟨"amazonq", [("amazonq", ⟨[], false⟩)]⟩⟩).1 = true ∧
    (start_monitoring
      ⟨false, 0, 0, 3, [], ⟨"amazonq", [("amazonq", ⟨[], false⟩)]⟩⟩).2.monitoring
      = true := by
  decide

/-- C8 (amended): `start_monitoring` is a no-op returning a failure value
when already monitoring; it refuses (returns failure, not an exception) in
kiro mode when no error templates are loaded and in auto or unknown modes
when no active detector exists; in amazonq mode it only warns and starts
even with no templates or a disabled detector; in every starting case it
sets `monitoring` to `true` (resetting the attempt counter) and launches
the polling loop. -/
theorem C8_start_monitoring_amended (s : KState) :
    (s.monitoring = true → start_monitoring s = (false, s)) ∧
    (s.monitoring = false → s.modeMgr.currentMode = "kiro" →
      s.errorTemplates = [] → start_monitoring s = (false, s)) ∧
    (s.monitoring = false → s.modeMgr.currentMode ≠ "kiro" →
      s.modeMgr.currentMode ≠ "amazonq" →
      get_active_detectors s.modeMgr = [] → start_monitoring s = (false, s)) ∧
    (s.monitoring = false →
      (s.modeMgr.currentMode = "amazonq" ∨
        (s.modeMgr.currentMode = "kiro" ∧ s.errorTemplates ≠ []) ∨
        (s.modeMgr.currentMode ≠ "kiro" ∧ s.modeMgr.currentMode ≠ "amazonq" ∧
          get_active_detectors s.modeMgr ≠ [])) →
      start_monitoring s =
        (true, { s with monitoring := true, recoveryAttempts := 0 })) := by
  refine ⟨?_, ?_, ?_, ?_⟩
  · intro h; simp [start_monitoring, h]
  · intro h hk he
    have hk' : s.modeMgr.currentMode ≠ "amazonq" := by simp [hk]
    simp [start_monitoring, h, hk, hk', he]
  · intro h hk ha hact
    simp [start_monitoring, h, hk, ha, hact]
  · intro h hcase
    rcases hcase with ha | ⟨hk, he⟩ | ⟨hk, ha, hact⟩
    · simp [start_monitoring, h, ha]
    · have ha' : s.modeMgr.currentMode ≠ "amazonq" := by simp [hk]
      simp [start_monitoring, h, hk, ha', he]
    · simp [start_monitoring, h, hk, ha, hact]

/-- Witness for C8 (amended): a state that is already monitoring is left
unchanged and no thread is returned. -/
theorem C8_start_monitoring_amended_witness :
    start_monitoring
      { monitoring := true, lastErrorTime := 0, recoveryAttempts := 1,
        maxRecoveryAttempts := 3, errorTemplates := ["e"],
        modeMgr := { currentMode := "kiro", detectors := [] } } =
      (false,
        { monitoring := true, lastErrorTime := 0, recoveryAttempts := 1,
          maxRecoveryAttempts := 3, errorTemplates := ["e"],
          modeMgr := { currentMode := "kiro", detectors := [] } }) :=
  (C8_start_monitoring_amended _).1 rfl

/-- C10: `ModeManager._setup_detectors` never registers a detector under
the key `"kiro"`, so in mode `"kiro"` the set of active detectors is empty
and `ModeManager.detect_and_execute` returns `None` for every screenshot —
whatever the per-detector detection, validity and action outcomes are. -/
theorem C10_kiro_mode_no_detectors (d : AQDet) (R : Type)
    (det : String × AQDet → Option R) (valid : R → Bool)
    (execAct : String × AQDet → R → Bool) :
    get_detector { currentMode := "kiro", detectors := setup_detectors d } "kiro" = none ∧
    get_active_detectors { currentMode := "kiro", detectors := setup_detectors d } = [] ∧
    detect_and_execute det valid execAct
      { currentMode := "kiro", detectors := setup_detectors d } = none := by
  have hget : get_detector
      { currentMode := "kiro", detectors := setup_detectors d } "kiro" = none := by
    simp [get_detector, setup_detectors, dictGet]
  have hact : get_active_detectors
      { currentMode := "kiro", detectors := setup_detectors d } = [] := by
    simp [get_active_detectors, setup_detectors, dictGet]
  exact ⟨hget, hact, by simp [detect_and_execute, hact]⟩

/-- The result of `detect_error` is the first template in store order that
fits the screenshot and reaches the threshold. -/
theorem detect_error_aux_eq_find (th : ℚ) (s : ImgDims)
    (ts : List TemplateMatch) :
    (detect_error_aux th s ts).1 =
      (ts.find? (fun t => fits s t && decide (th ≤ t.maxVal))).map
        TemplateMatch.name := by
  induction ts with
  | nil => rfl
  | cons t rest ih =>
    by_cases ho : t.h > s.h ∨ t.w > s.w
    · have hf : fits s t = false := by
        simp only [fits, decide_eq_false_iff_not]
        omega
      simp [detect_error_aux, if_pos ho, List.find?, hf, ih]
    · have hf : fits s t = true := by
        simp only [fits, decide_eq_true_eq]
        omega
      by_cases hth : th ≤ t.maxVal
      · simp [detect_error_aux, if_neg ho, if_pos hth, List.find?, hf, hth]
      · simp [detect_error_aux, if_neg ho, if_neg hth, List.find?, hf, hth, ih]

/-- `cv2.matchTemplate` is only invoked by `detect_error` on templates that
fit inside the screenshot. -/
theorem detect_error_aux_invoked_fits (th : ℚ) (s : ImgDims)
    (ts : List TemplateMatch) :
    ∀ t ∈ (detect_error_aux th s ts).2, fits s t = true := by
  induction ts with
  | nil => intro t ht; simp [detect_error_aux] at ht
  | cons t rest ih =>
    intro u hu
    by_cases ho : t.h > s.h ∨ t.w > s.w
    · rw [detect_error_aux, if_pos ho] at hu
      exact ih u hu
    · have hf : fits s t = true := by
        simp only [fits, decide_eq_true_eq]
        omega
      rw [detect_error_aux, if_neg ho] at hu
      by_cases hth : th ≤ t.maxVal
      · rw [if_pos hth] at hu
        simp only [List.mem_singleton] at hu
        exact hu ▸ hf
      · rw [if_neg hth] at hu
        simp only [List.mem_cons] at hu
        rcases hu with rfl | hu
        · exact hf
        · exact ih u hu

/-- C4: the error-state detector uses a first-match policy — it returns
the name of the first template (in store order) that fits the screenshot
and whose confidence reaches the threshold; in particular, for templates
`[A, B]` both fitting and both scoring at or above the threshold, the
result is `A`'s name. -/
theorem C4_detect_error_first_match :
    (∀ (th : ℚ) (s : ImgDims) (ts : List TemplateMatch),
      detect_error th s ts =
        (ts.find? (fun t => fits s t && decide (th ≤ t.maxVal))).map
          TemplateMatch.name) ∧
    (∀ (th : ℚ) (s : ImgDims) (A B : TemplateMatch),
      fits s A = true → fits s B = true →
      th ≤ A.maxVal → th ≤ B.maxVal →
      detect_error th s [A, B] = some A.name) := by
  constructor
  · intro th s ts
    exact detect_error_aux_eq_find th s ts
  · intro th s A B hA _ hthA _
    rw [detect_error, detect_error_aux_eq_find th s [A, B]]
    simp [List.find?, hA, hthA]

/-- Witness for C4: two fitting templates both above threshold `1`; the
first one is reported. -/
theorem C4_detect_error_first_match_witness :
    detect_error 1 ⟨100, 100⟩
        [⟨"A", 10, 10, 2, (0, 0)⟩, ⟨"B", 10, 10, 3, (5, 5)⟩] = some "A" :=
  C4_detect_error_first_match.2 1 ⟨100, 100⟩
    ⟨"A", 10, 10, 2, (0, 0)⟩ ⟨"B", 10, 10, 3, (5, 5)⟩
    (by decide) (by decide) (by decide) (by decide)

/-- `detect_state` invokes `cv2.matchTemplate` on every template of the
store, whether or not it fits. -/
theorem detect_state_loop_invoked (s : ImgDims) (ts : List TemplateMatch)
    (b : Best) : (detect_state_loop s ts b).2 = ts := by
  induction ts generalizing b with
  | nil => rfl
  | cons t rest ih => simp [detect_state_loop, ih]

/-- The best-match accumulator of `detect_state` either survives the loop
unchanged or holds the score, centre position and name of some fitting
template of the store. -/
theorem detect_state_loop_best (s : ImgDims) (ts : List TemplateMatch)
    (b : Best) :
    (detect_state_loop s ts b).1 = b ∨
      ∃ t ∈ ts, fits s t = true ∧
        (detect_state_loop s ts b).1 =
          ⟨t.maxVal, some (templateCenter t), t.name⟩ := by
  induction ts generalizing b with
  | nil => exact Or.inl rfl
  | cons t rest ih =>
    have hstep : (detect_state_loop s (t :: rest) b).1 =
        (detect_state_loop s rest (detect_state_update s b t)).1 := by
      simp [detect_state_loop]
    rcases ih (detect_state_update s b t) with h | ⟨u, hu, hfit, heq⟩
    · rw [hstep, h]
      unfold detect_state_update
      split_ifs with h1 h2
      · exact Or.inr ⟨t, by simp, h1, rfl⟩
      · exact Or.inl rfl
      · exact Or.inl rfl
    · exact Or.inr ⟨u, by simp [hu], hfit, hstep ▸ heq⟩

/-- The final best confidence is at least the initial one. -/
theorem detect_state_loop_conf_mono (s : ImgDims) (ts : List TemplateMatch)
    (b : Best) : b.confidence ≤ (detect_state_loop s ts b).1.confidence := by
  induction ts generalizing b with
  | nil => exact le_refl _
  | cons t rest ih =>
    have hstep : (detect_state_loop s (t :: rest) b).1 =
        (detect_state_loop s rest (detect_state_update s b t)).1 := by
      simp [detect_state_loop]
    rw [hstep]
    refine le_trans ?_ (ih (detect_state_update s b t))
    unfold detect_state_update
    split_ifs with h1 h2
    · exact le_of_lt h2
    · exact le_refl _
    · exact le_refl _

/-- The final best confidence dominates the score of every fitting
template of the store. -/
theorem detect_state_loop_conf_ge (s : ImgDims) (ts : List TemplateMatch)
    (b : Best) :
    ∀ t ∈ ts, fits s t = true →
      t.maxVal ≤ (detect_state_loop s ts b).1.confidence := by
  induction ts generalizing b with
  | nil => intro t ht; simp at ht
  | cons t rest ih =>
    intro u hu hufit
    have hstep : (detect_state_loop s (t :: rest) b).1 =
        (detect_state_loop s rest (detect_state_update s b t)).1 := by
      simp [detect_state_loop]
    rw [hstep]
    rcases List.mem_cons.mp hu with rfl | hu'
    · refine le_trans ?_ (detect_state_loop_conf_mono s rest _)
      unfold detect_state_update
      rw [if_pos hufit]
      split_ifs with h2
      · exact le_refl _
      · exact le_of_not_lt h2
    · exact ih _ u hu' hufit

/-- C5: the action-trigger (AmazonQ ▶RUN-button) detector uses a
best-match policy.  For a positive detection threshold and templates that
all fit the screenshot: a result is emitted iff some template scores at or
above the threshold, and any emitted result carries the score, centre
position and name of a best-scoring template (its confidence dominates
every template's score).  In the spec's concrete scenario — templates
`A@0.81` and `B@0.95`, threshold `0.8`, both 50×50, `B` best aligned at
`(40, 60)` — the result reports `B`. -/
theorem C5_detect_state_best_match :
    (∀ (th : ℚ) (s : ImgDims) (ts : List TemplateMatch),
      0 < th → (∀ t ∈ ts, fits s t = true) →
      (((detect_state th s ts).1.isSome) ↔ ∃ t ∈ ts, th ≤ t.maxVal) ∧
      (∀ r, (detect_state th s ts).1 = some r →
        (∃ t ∈ ts, r.confidence = t.maxVal ∧ r.template_name = t.name ∧
          r.position = some (templateCenter t)) ∧
        ∀ t ∈ ts, t.maxVal ≤ r.confidence)) ∧
    (detect_state (8/10) ⟨400, 600⟩
        [⟨"A", 50, 50, 81/100, (0, 0)⟩,
         ⟨"B", 50, 50, 95/100, (40, 60)⟩]).1 =
      some ⟨"run_button", 95/100, some (65, 85), "B"⟩ := by
  constructor
  · intro th s ts hth hfits
    rcases hts : ts with _ | ⟨t0, rest⟩
    · constructor
      · simp [detect_state]
      · intro r hr; simp [detect_state] at hr
    rw [← hts]
    have hne : ts.isEmpty = false := by rw [hts]; rfl
    have hloopbest := detect_state_loop_best s ts ⟨0, none, ""⟩
    have hconfge := detect_state_loop_conf_ge s ts ⟨0, none, ""⟩
    have hds : detect_state th s ts =
        (if th ≤ (detect_state_loop s ts ⟨0, none, ""⟩).1.confidence ∧
            (detect_state_loop s ts ⟨0, none, ""⟩).1.position.isSome then
          (some ⟨"run_button",
            (detect_state_loop s ts ⟨0, none, ""⟩).1.confidence,
            (detect_state_loop s ts ⟨0, none, ""⟩).1.position,
            (detect_state_loop s ts ⟨0, none, ""⟩).1.name⟩,
            (detect_state_loop s ts ⟨0, none, ""⟩).2)
        else (none, (detect_state_loop s ts ⟨0, none, ""⟩).2)) := by
      rw [detect_state, hne]
      rfl
    constructor
    · constructor
      · intro hsome
        by_cases hcond : th ≤ (detect_state_loop s ts ⟨0, none, ""⟩).1.confidence ∧
            (detect_state_loop s ts ⟨0, none, ""⟩).1.position.isSome
        · rcases hloopbest with hid | ⟨t, ht, _, heq⟩
          · rw [hid] at hcond
            exact absurd hcond.1 (by simpa using hth)
          · exact ⟨t, ht, by rw [heq] at hcond; exact hcond.1⟩
        · rw [hds, if_neg hcond] at hsome; simp at hsome
      · intro ⟨t, ht, htth⟩
        have hc : th ≤ (detect_state_loop s ts ⟨0, none, ""⟩).1.confidence :=
          le_trans htth (hconfge t ht (hfits t ht))
        have hcpos : (0 : ℚ) <
            (detect_state_loop s ts ⟨0, none, ""⟩).1.confidence :=
          lt_of_lt_of_le hth hc
        rcases hloopbest with hid | ⟨u, hu, hufit, heq⟩
        · rw [hid] at hcpos; simp at hcpos
        · have hpos : (detect_state_loop s ts ⟨0, none, ""⟩).1.position.isSome := by
            rw [heq]; rfl
          rw [hds, if_pos ⟨hc, hpos⟩]
          rfl
    · intro r hr
      by_cases hcond : th ≤ (detect_state_loop s ts ⟨0, none, ""⟩).1.confidence ∧
          (detect_state_loop s ts ⟨0, none, ""⟩).1.position.isSome
      · rw [hds, if_pos hcond] at hr
        have hrval : r = ⟨"run_button",
            (detect_state_loop s ts ⟨0, none, ""⟩).1.confidence,
            (detect_state_loop s ts ⟨0, none, ""⟩).1.position,
            (detect_state_loop s ts ⟨0, none, ""⟩).1.name⟩ :=
          (Option.some_inj.mp hr).symm
        rcases hloopbest with hid | ⟨u, hu, hufit, heq⟩
        · rw [hid] at hcond
          exact absurd hcond.1 (by simpa using hth)
        · constructor
          · exact ⟨u, hu, by rw [hrval, heq], by rw [hrval, heq],
              by rw [hrval, heq]⟩
          · intro t ht
            rw [hrval]
            exact hconfge t ht (hfits t ht)
      · rw [hds, if_neg hcond] at hr; simp at hr
  · simp only [detect_state, detect_state_loop, detect_state_update, fits,
      templateCenter, List.isEmpty]
    norm_num

/-- Witness for C5: threshold `1`, a single fitting template scoring `2`
is detected. -/
theorem C5_detect_state_best_match_witness :
    ((detect_state 1 ⟨100, 100⟩ [⟨"run", 10, 10, 2, (3, 4)⟩]).1.isSome ↔
      ∃ t ∈ [(⟨"run", 10, 10, 2, (3, 4)⟩ : TemplateMatch)], (1 : ℚ) ≤ t.maxVal) :=
  (C5_detect_state_best_match.1 1 ⟨100, 100⟩ [⟨"run", 10, 10, 2, (3, 4)⟩]
    (by decide) (by decide)).1

/-- C6 (the code at the spec's concrete scenario): with threshold `0.8`, a
single 50×50 template scoring `0.95` at alignment `(40, 60)` and region
offset `(100, 100)`, the monitor-area path produces no detection result at
all — the two-argument `detect_state` call raises `TypeError`, which is
caught, and `None` is returned; the detector itself (when called with its
one supported argument) reports the untranslated position `(65, 85)`; and
the intended translation `matchPos + templateCenterOffset + regionOffset`
evaluates to `(165, 185)` — not the claimed `(265, 185)`, whose first
coordinate miscomputes `100 + 40 + 25`. -/
theorem C6_region_offset_not_translated :
    detect_and_execute_with_offset (8/10) ⟨400, 600⟩
        [⟨"B", 50, 50, 95/100, (40, 60)⟩] (100, 100) (fun _ => true) = none ∧
    (detect_state (8/10) ⟨400, 600⟩ [⟨"B", 50, 50, 95/100, (40, 60)⟩]).1 =
      some ⟨"run_button", 95/100, some (65, 85), "B"⟩ ∧
    specGlobalPos (40, 60) (50, 50) (100, 100) = (165, 185) ∧
    ((165, 185) : Nat × Nat) ≠ (265, 185) := by
  refine ⟨rfl, ?_, rfl, by decide⟩
  simp only [detect_state, detect_state_loop, detect_state_update, fits,
    templateCenter, List.isEmpty]
  norm_num

/-- C7 counterexample: in the matching entry point
`AmazonQDetector.detect_state` there is no size guard — for a 10×10
screenshot and a single 50×50 template (which does not fit),
`cv2.matchTemplate` is invoked on the pair (it is in the invocation list),
refuting the claim that the correlation routine is never invoked on
oversized pairs in every matching entry point a detector uses. -/
theorem C7_oversized_invoked_counterexample :
    fits ⟨10, 10⟩ ⟨"big", 50, 50, 1, (0, 0)⟩ = false ∧
    (detect_state 1 ⟨10, 10⟩ [⟨"big", 50, 50, 1, (0, 0)⟩]).2 =
      [⟨"big", 50, 50, 1, (0, 0)⟩] := by
  decide

/-- C7 (amended): the `ImageProcessor` entry points (`detect_error`,
`find_template_position`) skip any template exceeding the screenshot in
either dimension and never invoke `cv2.matchTemplate` on it; but
`AmazonQDetector.detect_state` invokes `cv2.matchTemplate` on every
template of its store, oversized ones included — there the raised error
is caught per template, so an oversized template still never yields the
match: any result produced comes from a fitting template. -/
theorem C7_oversized_template_handling :
    (∀ (th : ℚ) (s : ImgDims) (ts : List TemplateMatch),
      ∀ t ∈ (detect_error_aux th s ts).2, fits s t = true) ∧
    (∀ (th : ℚ) (s : ImgDims) (t : TemplateMatch), fits s t = false →
      find_template_position th s t = (none, false)) ∧
    (∀ (th : ℚ) (s : ImgDims) (ts : List TemplateMatch),
      (detect_state th s ts).2 = ts) ∧
    (∀ (th : ℚ) (s : ImgDims) (ts : List TemplateMatch) (r : RunButtonResult),
      (detect_state th s ts).1 = some r →
      ∃ t ∈ ts, fits s t = true ∧ r.confidence = t.maxVal ∧
        r.template_name = t.name ∧ r.position = some (templateCenter t)) := by
  refine ⟨detect_error_aux_invoked_fits, ?_, ?_, ?_⟩
  · intro th s t hf
    have ho : t.h > s.h ∨ t.w > s.w := by
      simp only [fits, decide_eq_false_iff_not] at hf
      omega
    simp [find_template_position, if_pos ho]
  · intro th s ts
    rcases hts : ts with _ | ⟨t0, rest⟩
    · rfl
    · rw [← hts]
      have hne : ts.isEmpty = false := by rw [hts]; rfl
      rw [detect_state, hne]
      simp only [Bool.false_eq_true, if_false]
      by_cases hcond : th ≤ (detect_state_loop s ts ⟨0, none, ""⟩).1.confidence ∧
          (detect_state_loop s ts ⟨0, none, ""⟩).1.position.isSome
      · rw [if_pos hcond]
        exact detect_state_loop_invoked s ts _
      · rw [if_neg hcond]
        exact detect_state_loop_invoked s ts _
  · intro th s ts r hr
    rw [detect_state] at hr
    cases hne : ts.isEmpty with
    | true => rw [hne] at hr; simp at hr
    | false =>
    rw [hne] at hr
    simp only [Bool.false_eq_true, if_false] at hr
    by_cases hcond : th ≤ (detect_state_loop s ts ⟨0, none, ""⟩).1.confidence ∧
        (detect_state_loop s ts ⟨0, none, ""⟩).1.position.isSome
    · rw [if_pos hcond] at hr
      have hrval : r = ⟨"run_button",
          (detect_state_loop s ts ⟨0, none, ""⟩).1.confidence,
          (detect_state_loop s ts ⟨0, none, ""⟩).1.position,
          (detect_state_loop s ts ⟨0, none, ""⟩).1.name⟩ :=
        (Option.some_inj.mp hr).symm
      rcases detect_state_loop_best s ts ⟨0, none, ""⟩ with hid | ⟨u, hu, hufit, heq⟩
      · rw [hid] at hcond
        simp at hcond
      · exact ⟨u, hu, hufit, by rw [hrval, heq], by rw [hrval, heq],
          by rw [hrval, heq]⟩
    · rw [if_neg hcond] at hr
      simp at hr

/-- Witness for C7 (amended): `find_template_position` on a 10×10
screenshot with a 50×50 template returns no match without invoking the
correlation routine. -/
theorem C7_oversized_template_handling_witness :
    find_template_position 1 ⟨10, 10⟩ ⟨"big", 50, 50, 1, (0, 0)⟩ =
      (none, false) :=
  C7_oversized_template_handling.2.1 1 ⟨10, 10⟩ ⟨"big", 50, 50, 1, (0, 0)⟩
    (by decide)

/-- Looking up a key right after a dict insertion finds the inserted
value. -/
theorem dictGet_dictInsert {α : Type} (k : String) (v : α)
    (l : List (String × α)) : dictGet k (dictInsert k v l) = some v := by
  induction l with
  | nil => simp [dictInsert, dictGet]
  | cons p rest ih =>
    rcases p with ⟨k', v'⟩
    by_cases hk : k' = k
    · simp [dictInsert, dictGet, hk]
    · simp [dictInsert, dictGet, hk, ih]

/-- C9 counterexample: a failed `add_template` (disk write raises) returns
`False` but the in-memory template map is NOT unchanged — starting from an
empty store, after the failed add the new name is present in the map. -/
theorem C9_add_template_counterexample :
    add_template "t" (0 : Nat) false [] = (false, [("t", 0)]) ∧
    dictGet "t" (add_template "t" (0 : Nat) false []).2 = some 0 := by
  decide

/-- C9 (amended): `add_template` inserts the template into the in-memory
map *before* the disk write, so the call returns the disk-write outcome
with the insertion already performed either way: after a failed add the
new name is present in memory (the in-memory map is not left unchanged). -/
theorem C9_add_template_amended {α : Type} (name : String) (img : α)
    (imwriteOk : Bool) (ts : List (String × α)) :
    add_template name img imwriteOk ts = (imwriteOk, dictInsert name img ts) ∧
    dictGet name (add_template name img imwriteOk ts).2 = some img := by
  constructor
  · cases imwriteOk <;> rfl
  · have h2 : (add_template name img imwriteOk ts).2 = dictInsert name img ts := by
      cases imwriteOk <;> rfl
    rw [h2]
    exact dictGet_dictInsert name img ts

end AIReStarter
